import Mathlib

/-!
Verification of the `paragon_ecosystem` C benchmark harness (`bench.c`,
`paragon.c`, `paragon.h`).

The development is a shallow embedding of the C sources:

* machine integers become `Nat`/`Int` with explicit `% 2 ^ 32` where the C
  code relies on `unsigned` wrap-around;
* C `double` values are modelled as exact rationals (`ℚ`); every claim we
  settle about them compares two expressions built from the same operations,
  so the common floating-point rounding cancels out of the comparison;
* C strings (`char*`) become `String` / `List Char`; a possibly-`NULL`
  `char*` becomes `Option String`;
* the externally loaded shared library is opaque to the benchmark, and no
  claim under study depends on library-internal state, so its three possible
  entry points are modelled as pure functions returning `Option String`
  (`none` models a `NULL` reply).

The libc helpers `strtoll`, `strtod`, `strstr`, `strchr` that the C code
leans on are modelled after their documented base-10 / decimal behaviour
(the hexadecimal, infinity and not-a-number forms of `strtod` are not
modelled; no reply grammar in this program produces them).
-/

namespace ParagonBench

/-! ### Deterministic vector generator (`bench.c`, `json_fixed784`) -/

/-- One step of the linear congruential recurrence from `json_fixed784`:
`s = s*1664525u + 1013904223u` on a 32-bit unsigned state. -/
def lcg (s : Nat) : Nat := (s * 1664525 + 1013904223) % 2 ^ 32

/-- The state of the generator after `n` update steps, starting from the
fixed seed `123` (`unsigned s = 123u;`). -/
def lcgState : Nat → Nat
  | 0 => 123
  | n + 1 => lcg (lcgState n)

/-- The value appended for loop index `i` in `json_fixed784`:
`double v = (double)s / 4294967295.0;` where `s` has been updated `i + 1`
times when element `i` is produced. -/
def fixedVal (i : Nat) : ℚ := (lcgState (i + 1) : ℚ) / 4294967295

/-- The deterministic input vector: the 784 values produced by the loop in
`json_fixed784`. -/
def fixedVec784 : List ℚ := (List.range 784).map fixedVal

/-! ### Models of the libc text helpers used by `paragon.c` / `bench.c` -/

/-- Characters accepted by `isspace` in the C locale. -/
def isSpaceC (c : Char) : Bool :=
  c == ' ' || c == '\t' || c == '\n' || c == '\x0b' || c == '\x0c' || c == '\r'

/-- Value of a list of decimal digit characters. -/
def digitsToNat (ds : List Char) : Nat :=
  ds.foldl (fun a c => a * 10 + (c.toNat - 48)) 0

/-- Longest prefix of decimal digits, and the remaining characters. -/
def spanDigits (l : List Char) : List Char × List Char := l.span (·.isDigit)

/-- Strip one optional leading sign, returning whether it was a minus. -/
def dropSignC : List Char → Bool × List Char
  | '-' :: r => (true, r)
  | '+' :: r => (false, r)
  | l => (false, l)

/-- Result of the `strtoll` model: the parsed value, the unconsumed suffix
(the `endptr`), and whether any conversion was performed.  When no digits
are found, C leaves `endptr` at the original start, modelled here by
returning the whole input as `rest`. -/
structure StrtollResult where
  val : Int
  rest : List Char
  ok : Bool
deriving DecidableEq

/-- Model of `strtoll(s, &endp, 10)`: optional `isspace` run, optional sign,
then base-10 digits.  Overflow clamping is not modelled; no handle in this
program approaches `LLONG_MAX`. -/
def strtoll (s : List Char) : StrtollResult :=
  let t0 := s.dropWhile isSpaceC
  let sg := dropSignC t0
  let d := spanDigits sg.2
  if d.1.isEmpty then ⟨0, s, false⟩
  else ⟨if sg.1 then -(digitsToNat d.1 : Int) else (digitsToNat d.1 : Int), d.2, true⟩

/-- Model of `strstr(hay, needle)`: the suffix of `hay` beginning at the
first occurrence of `needle`, or `none`. -/
def strstr : List Char → List Char → Option (List Char)
  | [], needle => if needle.isPrefixOf ([] : List Char) then some [] else none
  | c :: t, needle =>
    if needle.isPrefixOf (c :: t) then some (c :: t) else strstr t needle

/-- Model of `strchr(s, c)`: the suffix of `s` beginning at the first
occurrence of `c`, or `none`. -/
def strchr : List Char → Char → Option (List Char)
  | [], _ => none
  | a :: t, c => if a == c then some (a :: t) else strchr t c

/-! ### Robust handle parsing (`paragon.c`, `paragon_parse_handle`) -/

/-- The recognized handle key spellings, in the order the C array lists
them. -/
def handleKeys : List String :=
  ["\"handle\"", "\"Handle\"", "\"id\"", "\"ID\"",
   "\"network_handle\"", "\"NetworkHandle\"",
   "\"h\"", "\"H\""]

/-- One iteration of the key loop body: find the key, find the following
colon, skip `':'`/`' '`/`'\t'`/`'"'`, and take an integer if one converts
there. -/
def tryKey (hay : List Char) (key : String) : Option Int :=
  match strstr hay key.data with
  | none => none
  | some p =>
    match strchr p ':' with
    | none => none
    | some q =>
      let r := q.dropWhile fun c => c == ':' || c == ' ' || c == '\t' || c == '\"'
      let t := strtoll r
      if t.ok then some t.val else none

/-- The inner key loop: first key that yields an integer wins. -/
def scanKeys (hay : List Char) : Option Int :=
  handleKeys.findSome? (tryKey hay)

/-- Model of `paragon_parse_handle`.  A `NULL` argument is `none`.  The bare
integer branch fires exactly when `strtoll` left `endp` on the terminator
(`rest = []`); pass 0 scans the whole text for a key, pass 1 rescans from
the first `"result"` occurrence; otherwise `-1`. -/
def paragon_parse_handle (txt : Option String) : Int :=
  match txt with
  | none => -1
  | some s =>
    let t := strtoll s.data
    if t.rest.isEmpty then t.val
    else
      match scanKeys s.data with
      | some v => v
      | none =>
        match strstr s.data "\"result\"".data with
        | none => -1
        | some hay =>
          match scanKeys hay with
          | some v => v
          | none => -1

/-! ### Capability table and dynamic resolver (`paragon.h`, `paragon.c`) -/

/-- Type of the 5-argument constructor export
(`fn_NewNetworkFloat32_5`); the reply is a possibly-`NULL` string. -/
abbrev Fn5 := String → String → String → Bool → Bool → Option String

/-- Type of the 3-argument constructor export (`fn_NewNetworkFloat32_3`). -/
abbrev Fn3 := String → String → String → Option String

/-- Type of the generic dispatch export (`fn_Call`).  The loaded library is
an opaque black box; no claim under study depends on library-internal state,
so replies are modelled as a pure function of handle, method and
arguments. -/
abbrev FnC := Int → String → String → Option String

/-- The capability table (`ParagonAPI`): one optional binding per entry
point category. -/
structure ParagonAPI where
  New5 : Option Fn5
  New3 : Option Fn3
  Call : Option FnC

/-- A successfully `dlopen`ed library, as the resolver sees it: for each
category, which export names it defines.  (C performs one untyped `dlsym`
and casts; the typed split mirrors the three casts in `paragon_load`.) -/
structure Lib where
  sym5 : String → Option Fn5
  sym3 : String → Option Fn3
  symC : String → Option FnC

/-- Model of `resolve_any`: first name that resolves wins. -/
def resolve_any {α : Type} (look : String → Option α) : List String → Option α
  | [] => none
  | n :: rest =>
    match look n with
    | some p => some p
    | none => resolve_any look rest

/-- Alias list for the 5-argument constructor (`NEW5` in `paragon_load`). -/
def NEW5 : List String :=
  ["Paragon_NewNetworkFloat32", "Teleport_NewNetworkFloat32", "NewNetworkFloat32"]

/-- Alias list for the 3-argument constructor (`NEW3` in `paragon_load`). -/
def NEW3 : List String :=
  ["Paragon_NewNetworkFloat32_JSON", "Teleport_NewNetworkFloat32_JSON",
   "NewNetworkFloat32_JSON"]

/-- Alias list for generic dispatch (`CALLN` in `paragon_load`). -/
def CALLN : List String := ["Paragon_Call", "Teleport_Call", "Call"]

/-- Model of `paragon_load`.  A failed `dlopen` is `none`: the table stays
all-`NULL` (the C code `memset`s it to zero) and the function still returns
its normal status `1`.  On success each category is resolved through its
alias list. -/
def paragon_load (lib : Option Lib) : ParagonAPI × Int :=
  match lib with
  | none => (⟨none, none, none⟩, 1)
  | some l =>
    (⟨resolve_any l.sym5 NEW5, resolve_any l.sym3 NEW3, resolve_any l.symC CALLN⟩, 1)

/-- Model of `paragon_call0`: `NULL` unless the dispatch capability is
bound, in which case the method is called with empty argument list. -/
def paragon_call0 (api : ParagonAPI) (h : Int) (method : String) : Option String :=
  match api.Call with
  | none => none
  | some c => c h method "[]"

/-- Serialization of a C `bool` into the argument list built by
`paragon_new_net_any` (`prefer_gpu ? "true":"false"`). -/
def boolJson (b : Bool) : String := if b then "true" else "false"

/-- Model of `paragon_new_net_any`: 5-argument constructor preferred, then
3-argument constructor, then generic dispatch with all five values in one
argument list, else `NULL`. -/
def paragon_new_net_any (api : ParagonAPI)
    (layers activs trainable : String) (prefer_gpu expose : Bool) : Option String :=
  match api.New5 with
  | some f => f layers activs trainable prefer_gpu expose
  | none =>
    match api.New3 with
    | some g => g layers activs trainable
    | none =>
      match api.Call with
      | some c =>
        c 0 "NewNetworkFloat32"
          ("[" ++ layers ++ "," ++ activs ++ "," ++ trainable ++ ","
            ++ boolJson prefer_gpu ++ "," ++ boolJson expose ++ "]")
      | none => none

/-- The construction strategies of the façade, in the priority order of the
branches of `paragon_new_net_any`. -/
inductive Strategy
  | use5
  | use3
  | dispatch
  | fail
deriving DecidableEq

/-- The branch of `paragon_new_net_any` that a given capability table
selects: the guards of the C function, with the invoked function
erased. -/
def chooseStrategy (api : ParagonAPI) : Strategy :=
  match api.New5 with
  | some _ => .use5
  | none =>
    match api.New3 with
    | some _ => .use3
    | none =>
      match api.Call with
      | some _ => .dispatch
      | none => .fail

/-! ### Tolerant numeric-vector parsing (`bench.c`, `parse_vector_tolerant`) -/

/-- Result of the `strtod` model, with the same `endptr` convention as
`StrtollResult`. -/
structure StrtodResult where
  val : ℚ
  rest : List Char
  ok : Bool
deriving DecidableEq

/-- Fractional part after a decimal point: the digits consumed (empty when
the head is not `'.'`) and the remaining characters. -/
def parseFrac : List Char → List Char × List Char
  | '.' :: r => spanDigits r
  | l => ([], l)

/-- Optional exponent part: the exponent value and the remaining
characters; an `'e'` not followed by digits is left unconsumed, as
`strtod` keeps only the longest valid prefix. -/
def parseExp (l : List Char) : Int × List Char :=
  match l with
  | [] => (0, [])
  | c :: r =>
    if c == 'e' || c == 'E' then
      if (spanDigits (dropSignC r).2).1.isEmpty then (0, c :: r)
      else
        (if (dropSignC r).1 then -(digitsToNat (spanDigits (dropSignC r).2).1 : Int)
         else (digitsToNat (spanDigits (dropSignC r).2).1 : Int),
         (spanDigits (dropSignC r).2).2)
    else (0, c :: r)

/-- Model of `strtod(s, &e)` on its decimal grammar: optional `isspace`
run, optional sign, digits with an optional fractional part (at least one
digit overall required), optional exponent.  Conversion fails with
`rest = s` when no digits are found. -/
def strtod (s : List Char) : StrtodResult :=
  let t0 := s.dropWhile isSpaceC
  let sg := dropSignC t0
  let ipart := spanDigits sg.2
  let fpart := parseFrac ipart.2
  if ipart.1.isEmpty && fpart.1.isEmpty then ⟨0, s, false⟩
  else
    let mant : ℚ :=
      (digitsToNat ipart.1 : ℚ) + (digitsToNat fpart.1 : ℚ) / (10 : ℚ) ^ fpart.1.length
    let ep := parseExp fpart.2
    let v : ℚ := mant * (10 : ℚ) ^ ep.1
    ⟨if sg.1 then -v else v, ep.2, true⟩

theorem length_dropWhile_le (p : Char → Bool) (l : List Char) :
    (l.dropWhile p).length ≤ l.length := by
  have h := congrArg List.length (List.takeWhile_append_dropWhile (p := p) (l := l))
  rw [List.length_append] at h
  omega

theorem spanDigits_length (l : List Char) :
    (spanDigits l).1.length + (spanDigits l).2.length = l.length := by
  have h := congrArg List.length
    (List.takeWhile_append_dropWhile (p := (·.isDigit)) (l := l))
  rw [List.length_append] at h
  simpa [spanDigits, List.span_eq_take_drop] using h

theorem dropSignC_length_le (l : List Char) : (dropSignC l).2.length ≤ l.length := by
  unfold dropSignC
  split <;> simp

theorem parseFrac_length_le (l : List Char) : (parseFrac l).2.length ≤ l.length := by
  unfold parseFrac
  split
  · rename_i r
    have := spanDigits_length r
    simp only [List.length_cons]
    omega
  · simp

theorem parseFrac_length_lt (l : List Char) :
    (parseFrac l).1 ≠ [] → (parseFrac l).2.length < l.length := by
  unfold parseFrac
  split
  · rename_i r
    intro _
    have := spanDigits_length r
    simp only [List.length_cons]
    omega
  · intro h
    exact absurd rfl h

theorem parseExp_length_le (l : List Char) : (parseExp l).2.length ≤ l.length := by
  unfold parseExp
  split
  · simp
  · rename_i c r
    by_cases hc : (c == 'e' || c == 'E') = true
    · simp only [hc, if_true]
      split
      · simp
      · have h1 := dropSignC_length_le r
        have h2 := spanDigits_length (dropSignC r).2
        simp only [List.length_cons]
        omega
    · simp [hc]

/-- When `strtod` converts, it consumes at least one character; this is the
termination measure of the scanning loop in `parse_vector_tolerant`. -/
theorem strtod_rest_length_lt (s : List Char) (h : (strtod s).ok = true) :
    (strtod s).rest.length < s.length := by
  by_cases hfail :
      ((spanDigits (dropSignC (s.dropWhile isSpaceC)).2).1.isEmpty &&
        (parseFrac (spanDigits (dropSignC (s.dropWhile isSpaceC)).2).2).1.isEmpty) = true
  · exfalso
    simp only [strtod, hfail, if_pos] at h
    exact Bool.false_ne_true h
  · have hres : (strtod s).rest =
        (parseExp (parseFrac (spanDigits (dropSignC (s.dropWhile isSpaceC)).2).2).2).2 := by
      simp only [strtod, hfail, if_neg]
      simp [hfail]
    have h0 := length_dropWhile_le isSpaceC s
    have h1 := dropSignC_length_le (s.dropWhile isSpaceC)
    have h2 := spanDigits_length (dropSignC (s.dropWhile isSpaceC)).2
    have h4 := parseExp_length_le (parseFrac (spanDigits (dropSignC (s.dropWhile isSpaceC)).2).2).2
    rw [hres]
    rcases Bool.and_eq_true_iff.not.mp (by exact_mod_cast hfail) |> not_and_or.mp with hip | hfp
    · have hip' : (spanDigits (dropSignC (s.dropWhile isSpaceC)).2).1 ≠ [] := by
        simpa [List.isEmpty_iff] using hip
      have h3 := parseFrac_length_le (spanDigits (dropSignC (s.dropWhile isSpaceC)).2).2
      have : (spanDigits (dropSignC (s.dropWhile isSpaceC)).2).1.length ≥ 1 :=
        List.length_pos.mpr hip'
      omega
    · have hfp' : (parseFrac (spanDigits (dropSignC (s.dropWhile isSpaceC)).2).2).1 ≠ [] := by
        simpa [List.isEmpty_iff] using hfp
      have h3 := parseFrac_length_lt (spanDigits (dropSignC (s.dropWhile isSpaceC)).2).2 hfp'
      omega

/-- The scanning loop of `parse_vector_tolerant`: with at least one
character left before the closing bracket and room left in `out`, try
`strtod`; on conversion, store the value and jump to the end pointer; on
failure, advance one character. -/
def scanFloats : List Char → Nat → List ℚ
  | [], _ => []
  | _ :: _, 0 => []
  | c :: cs, m + 1 =>
    let r := strtod (c :: cs)
    if h : r.ok = true then
      r.val :: scanFloats r.rest m
    else
      scanFloats cs (m + 1)
termination_by l _ => l.length
decreasing_by
  · exact strtod_rest_length_lt (c :: cs) h
  · simp

/-- Index of the last occurrence of `c` in `l` (the `strrchr` position),
or `none`. -/
def lastIdxOf (c : Char) (l : List Char) : Option Nat :=
  match l.reverse.findIdx? (· == c) with
  | none => none
  | some r => some (l.length - 1 - r)

/-- Model of `parse_vector_tolerant`: empty on `NULL` text, on a missing
`'['` or `']'`, or when the last `']'` does not come after the first `'['`;
otherwise the scan of the characters strictly between the two brackets,
collecting at most `maxn` values.  (No decimal literal can contain `']'`,
so truncating at the closing bracket is exactly the C loop bound
`s < q`.) -/
def parse_vector_tolerant (txt : Option String) (maxn : Nat) : List ℚ :=
  match txt with
  | none => []
  | some s =>
    match s.data.findIdx? (· == '['), lastIdxOf ']' s.data with
    | some p, some q =>
      if q ≤ p then []
      else scanFloats ((s.data.drop (p + 1)).take (q - p - 1)) maxn
    | some _, none => []
    | none, _ => []

/-! ### Comparison metrics and speedup (`bench.c`, `run_one`) -/

/-- The divergence loop of `run_one`: absolute differences over the first
`min na nb` positions (`List.zip` truncates to exactly that overlap), `mae`
summed then divided by `n` when `n > 0`, `mx` updated by
`if (d > mx) mx = d` starting from `0.0`. -/
def divergence (a b : List ℚ) : ℚ × ℚ :=
  let ds := (a.zip b).map fun p => |p.1 - p.2|
  let mae := ds.foldl (· + ·) 0
  let mx := ds.foldl (fun m d => if d > m then d else m) 0
  (if 0 < ds.length then mae / ds.length else 0, mx)

/-- The speedup expression printed by `run_one`:
`gpu_ms > 0 ? cpu_ms/gpu_ms : 0.0`. -/
def speedup (cpu_ms gpu_ms : ℚ) : ℚ :=
  if 0 < gpu_ms then cpu_ms / gpu_ms else 0

/-! ### JSON serialization (`bench.c`) -/

/-- Rendering of a nonnegative rational with exactly six digits after the
decimal point, the `"%.6f"` conversion of the loop in `json_fixed784`
(rounding to nearest; the generated values are never ties). -/
def fmt6nn (q : ℚ) : String :=
  let n : Nat := (⌊q * 1000000 + 1 / 2⌋).toNat
  toString (n / 1000000) ++ "." ++
    String.mk (List.replicate (6 - (toString (n % 1000000)).length) '0') ++
    toString (n % 1000000)

/-- The `"%.6f"` conversion including the sign of negative values. -/
def fmt6 (q : ℚ) : String := if q < 0 then "-" ++ fmt6nn (-q) else fmt6nn q

/-- Model of `json_layers`: one `{"Width":d,"Height":1}` object per
layer width, comma-separated inside brackets. -/
def json_layers (dims : List Nat) : String :=
  "[" ++
    String.intercalate ","
      (dims.map fun d => "\x7b\"Width\":" ++ toString d ++ ",\"Height\":1\x7d") ++
  "]"

/-- Model of `json_activs`: `"linear"`, one `"relu"` per interior layer
(the loop runs for `1 ≤ i < ndims - 1`), then `"softmax"`. -/
def json_activs (ndims : Nat) : String :=
  "[\"linear\"" ++ String.join (List.replicate (ndims - 2) ",\"relu\"") ++ ",\"softmax\"]"

/-- Model of `json_trainable`: `true` repeated once per layer. -/
def json_trainable (ndims : Nat) : String :=
  "[" ++ String.intercalate "," (List.replicate ndims "true") ++ "]"

/-- The comma-separated body built by the loop of `json_fixed784`
(`append(i ? ",%.6f" : "%.6f", v)` for `i = 0, …, 783`). -/
def fixedBody : String :=
  (List.range 784).foldl
    (fun acc i => acc ++ (if i == 0 then "" else ",") ++ fmt6 (fixedVal i)) ""

/-- Model of `json_fixed784`: the loop body wrapped in `[[` … `]]`. -/
def json_fixed784 : String := "[[" ++ fixedBody ++ "]]"

/-- Comma-separated join of a token list (used to state what the
serialization loops produce). -/
def joinComma : List String → String
  | [] => ""
  | x :: xs => xs.foldl (fun a s => a ++ "," ++ s) x

/-! ### Benchmark engine (`bench.c`, `run_one` and `main`) -/

/-- A direct `api->Call` invocation as `run_one` performs it on lines 120
and 130.  In C these lines run only after a construction reply decoded to a
positive handle, which requires some constructor symbol to be bound; the
`none` fallback makes the model total. -/
def rawCall (api : ParagonAPI) (h : Int) (method args : String) : Option String :=
  match api.Call with
  | none => none
  | some c => c h method args

/-- The data `run_one` extracts from one completed case: the serialized
forward argument, both raw `ExtractOutput` replies, and the divergence
metrics.  (Elapsed wall times come from the monotonic clock, an
environmental input outside the embedding.) -/
structure CaseReport where
  fwdArg : String
  outA : Option String
  outB : Option String
  mae : ℚ
  mx : ℚ
deriving DecidableEq

/-- Outcome of one benchmark case: construction failure (handle `≤ 0`,
`goto out`) with the raw construction reply, or a completed run. -/
inductive CaseOutcome
  | constructionFailed (newr : Option String)
  | completed (r : CaseReport)
deriving DecidableEq

/-- The serialized forward argument of `run_one`:
`snprintf(args, n, "[%s]", xin)` with `xin = json_fixed784()`. -/
def forward_args : String := "[" ++ json_fixed784 ++ "]"

/-- Projection used to state which forward argument a case passed, if a
forward pass happened at all. -/
def CaseOutcome.fwdArgOf : CaseOutcome → Option String
  | .constructionFailed _ => none
  | .completed r => some r.fwdArg

/-- Model of `run_one` for one shape descriptor.  The best-effort
acceleration calls (`InitializeOptimizedGPU`, `try_gpu_enable`,
`ToggleGPU`) all discard their replies and, with replies modelled as pure
functions, do not affect any value below, so they are omitted from the data
flow. -/
def run_one (api : ParagonAPI) (dims : List Nat) : CaseOutcome :=
  let layers := json_layers dims
  let activs := json_activs dims.length
  let fully := json_trainable dims.length
  let newr := paragon_new_net_any api layers activs fully false false
  let h := paragon_parse_handle newr
  if h ≤ 0 then .constructionFailed newr
  else
    let args := forward_args
    let _fwdA := rawCall api h "Forward" args
    let outA := paragon_call0 api h "ExtractOutput"
    let _fwdB := rawCall api h "Forward" args
    let outB := paragon_call0 api h "ExtractOutput"
    let a := parse_vector_tolerant outA 1024
    let b := parse_vector_tolerant outB 1024
    let m := divergence a b
    .completed ⟨args, outA, outB, m.1, m.2⟩

/-- The fixed ten-case suite of `main` (`S1 … XL2`). -/
def suite : List (List Nat) :=
  [[784, 64, 10], [784, 128, 10], [784, 256, 10],
   [784, 256, 256, 10], [784, 384, 384, 10], [784, 512, 512, 10],
   [784, 768, 768, 768, 10], [784, 1024, 1024, 1024, 10],
   [784, 1536, 1536, 1536, 1536, 10], [784, 2048, 2048, 2048, 2048, 10]]

/-- Model of `main`: load (possibly unsuccessfully), run every case in
order, unload, `return 0`. -/
def benchSuite (lib : Option Lib) : List CaseOutcome × Int :=
  (suite.map (run_one (paragon_load lib).1), 0)

/-! ### Auxiliary lemmas -/

theorem spanDigits_nil : spanDigits [] = ([], []) := rfl

theorem spanDigits_cons (c : Char) (l : List Char) :
    spanDigits (c :: l) =
      if c.isDigit then ((spanDigits l).1.cons c, (spanDigits l).2) else ([], c :: l) := by
  simp only [spanDigits, List.span_eq_take_drop, List.takeWhile_cons, List.dropWhile_cons]
  split <;> simp_all

theorem joinComma_append (l : List String) (s : String) :
    joinComma (l ++ [s]) = if l.isEmpty then s else joinComma l ++ "," ++ s := by
  cases l with
  | nil => simp [joinComma]
  | cons x xs =>
    simp only [joinComma, List.cons_append, List.foldl_append, List.foldl_cons,
      List.foldl_nil, List.isEmpty_cons, if_neg]
    rfl

theorem foldlComma_eq (g : Nat → String) (n : Nat) :
    (List.range n).foldl (fun acc i => acc ++ (if i == 0 then "" else ",") ++ g i) ""
      = joinComma ((List.range n).map g) := by
  induction n with
  | zero => simp [joinComma]
  | succ n ih =>
    rw [List.range_succ, List.foldl_append, List.map_append]
    simp only [List.map_cons, List.map_nil]
    rw [joinComma_append, ih]
    cases n with
    | zero => simp [joinComma]
    | succ k =>
      have hne : ((List.range (k + 1)).map g).isEmpty = false := by
        simp [List.isEmpty_iff, List.range_eq_nil]
      simp [hne]

theorem fixedBody_eq :
    fixedBody = joinComma ((List.range 784).map fun i => fmt6 (fixedVal i)) :=
  foldlComma_eq (fun i => fmt6 (fixedVal i)) 784

theorem zip_take_min (a b : List ℚ) :
    (a.take (min a.length b.length)).zip (b.take (min a.length b.length)) = a.zip b := by
  show List.zipWith Prod.mk _ _ = List.zipWith Prod.mk a b
  rw [← List.take_zipWith]
  have hl : (List.zipWith Prod.mk a b).length = min a.length b.length := by
    rw [List.length_zipWith]
  rw [← hl, List.take_length]

/-! ### Claim theorems -/

/-- C1.  Every element `i` of the deterministic input vector is the `i`-th
normalized state of the linear congruential recurrence
`s' = (s*1664525 + 1013904223) mod 2^32`, divided by `4294967295.0`; in
particular element `0` equals `((123*1664525+1013904223) mod 2^32) /
4294967295.0`.  The vector is a closed constant of the seed-123 recurrence,
so it is identical on every invocation. -/
theorem deterministic_vector_spec :
    fixedVec784.length = 784
  ∧ (∀ i : Fin 784, fixedVec784.getD i.val 0 = (lcgState (i.val + 1) : ℚ) / 4294967295)
  ∧ fixedVec784.getD 0 0 = (((123 * 1664525 + 1013904223) % 2 ^ 32 : ℕ) : ℚ) / 4294967295 := by
  refine ⟨by rw [fixedVec784, List.length_map, List.length_range], fun i => ?_, ?_⟩
  · rw [fixedVec784, List.getD_eq_getElem?_getD, List.getElem?_map,
      List.getElem?_range i.isLt]
    rfl
  · rw [fixedVec784, List.getD_eq_getElem?_getD, List.getElem?_map,
      List.getElem?_range (by norm_num : (0 : ℕ) < 784)]
    rfl

/-- C2.  Whenever a benchmark case reaches the forward pass, the argument
string handed to the generic dispatch "Forward" operation is always the
same serialized single-sample batch: one argument-list bracket around
`[[t0,…,t783]]`, where the inner 784 comma-separated tokens are the
formatted deterministic vector values. -/
theorem forward_batch_shape_spec :
    (∀ (api : ParagonAPI) (dims : List Nat),
        (run_one api dims).fwdArgOf = none ∨ (run_one api dims).fwdArgOf = some forward_args)
  ∧ forward_args = "[" ++ json_fixed784 ++ "]"
  ∧ json_fixed784 = "[[" ++ joinComma (fixedVec784.map fmt6) ++ "]]"
  ∧ (fixedVec784.map fmt6).length = 784 := by
  refine ⟨fun api dims => ?_, rfl, ?_,
    by rw [List.length_map, fixedVec784, List.length_map, List.length_range]⟩
  · by_cases h :
        paragon_parse_handle
          (paragon_new_net_any api (json_layers dims) (json_activs dims.length)
            (json_trainable dims.length) false false) ≤ 0
    · left
      simp [run_one, CaseOutcome.fwdArgOf, h]
    · right
      simp [run_one, CaseOutcome.fwdArgOf, h]
  · rw [json_fixed784, fixedBody_eq, fixedVec784, List.map_map]
    rfl

/-- C3.  When the shared library fails to load, the resolver still returns
(with its normal status 1) an all-unbound capability table, the call
helpers return absent results, and the full ten-case suite completes with
every case reporting construction failure and exit status 0. -/
theorem load_failure_degrades_spec :
    paragon_load none = (⟨none, none, none⟩, 1)
  ∧ (∀ (h : Int) (m : String), paragon_call0 (paragon_load none).1 h m = none)
  ∧ (∀ (l a t : String) (g e : Bool),
        paragon_new_net_any (paragon_load none).1 l a t g e = none)
  ∧ benchSuite none = (List.replicate 10 (CaseOutcome.constructionFailed none), 0) :=
  ⟨rfl, fun _ _ => rfl, fun _ _ _ _ _ => rfl, rfl⟩

/-- C4.  Handle decoding returns the converted integer whenever `strtoll`
consumed the whole text (the bare-integer branch), otherwise scans for the
recognized key spellings and returns the first integer after a found key,
and returns the sentinel `-1` when both fail; witnessed on the four
documented examples. -/
theorem parse_handle_decoding_spec :
    (∀ s : String, (strtoll s.data).rest = [] →
        paragon_parse_handle (some s) = (strtoll s.data).val)
  ∧ paragon_parse_handle (some "42") = 42
  ∧ paragon_parse_handle (some "\x7b\"handle\": 7\x7d") = 7
  ∧ paragon_parse_handle (some "\x7b\"result\":\x7b\"id\": 9\x7d\x7d") = 9
  ∧ paragon_parse_handle (some "not json") = -1 := by
  refine ⟨fun s h => ?_, by decide, by decide, by decide, by decide⟩
  simp [paragon_parse_handle, h]

/-- Witness for C4: the bare-integer branch evaluated at `"42"`. -/
theorem parse_handle_decoding_spec_witness :
    paragon_parse_handle (some "42") = (strtoll "42".data).val :=
  parse_handle_decoding_spec.1 "42" (by decide)

/-- C5.  Numeric-vector decoding yields the empty sequence on `NULL` text,
on text lacking `'['` or `']'`, or when the last `']'` is not after the
first `'['`; otherwise it scans the span between the brackets, skipping
unparseable characters one at a time; on `"[1.0,2.5,bad,3]"` with maximum
length 10 it yields exactly `[1.0, 2.5, 3.0]`. -/
theorem parse_vector_decoding_spec :
    (∀ m : Nat, parse_vector_tolerant none m = [])
  ∧ (∀ (s : String) (m : Nat), s.data.findIdx? (· == '[') = none →
        parse_vector_tolerant (some s) m = [])
  ∧ (∀ (s : String) (m : Nat), lastIdxOf ']' s.data = none →
        parse_vector_tolerant (some s) m = [])
  ∧ (∀ (s : String) (m p q : Nat), s.data.findIdx? (· == '[') = some p →
        lastIdxOf ']' s.data = some q → q ≤ p →
        parse_vector_tolerant (some s) m = [])
  ∧ parse_vector_tolerant (some "[1.0,2.5,bad,3]") 10 = [1, 5/2, 3] := by
  refine ⟨fun m => rfl, fun s m h => ?_, fun s m h => ?_, fun s m p q h1 h2 hle => ?_, ?_⟩
  · simp [parse_vector_tolerant, h]
  · rcases hf : s.data.findIdx? (· == '[') with _ | p <;>
      simp [parse_vector_tolerant, hf, h]
  · simp [parse_vector_tolerant, h1, h2, hle]
  · have h0 : parse_vector_tolerant (some "[1.0,2.5,bad,3]") 10
        = scanFloats "1.0,2.5,bad,3".data 10 := by
      simp +decide [parse_vector_tolerant, lastIdxOf]
    rw [h0]
    simp +decide [scanFloats, strtod, spanDigits_cons, spanDigits_nil, parseFrac, parseExp,
      dropSignC, isSpaceC, digitsToNat]
    norm_num

/-- Witness for C5: a bracketless text decodes to the empty sequence. -/
theorem parse_vector_decoding_spec_witness :
    parse_vector_tolerant (some "no numbers here") 7 = [] :=
  parse_vector_decoding_spec.2.1 "no numbers here" 7 (by decide)

/-- C6.  The construction façade tries the 5-argument constructor first
(passing the benchmark's acceleration-preference `false` and expose-methods
`false`), then the 3-argument constructor with only the structural
arguments, then one generic-dispatch call carrying all five serialized
values, and otherwise returns an absent reply. -/
theorem construction_facade_priority_spec (api : ParagonAPI) (l a t : String) :
    (∀ f, api.New5 = some f →
        paragon_new_net_any api l a t false false = f l a t false false)
  ∧ (api.New5 = none → ∀ g, api.New3 = some g →
        paragon_new_net_any api l a t false false = g l a t)
  ∧ (api.New5 = none → api.New3 = none → ∀ c, api.Call = some c →
        paragon_new_net_any api l a t false false =
          c 0 "NewNetworkFloat32" ("[" ++ l ++ "," ++ a ++ "," ++ t ++ ",false,false]"))
  ∧ (api.New5 = none → api.New3 = none → api.Call = none →
        paragon_new_net_any api l a t false false = none) := by
  refine ⟨fun f h5 => ?_, fun h5 g h3 => ?_, fun h5 h3 c hc => ?_, fun h5 h3 hc => ?_⟩
  · simp [paragon_new_net_any, h5]
  · simp [paragon_new_net_any, h5, h3]
  · simp only [paragon_new_net_any, h5, h3, hc, boolJson, if_neg, Bool.false_eq_true,
      ite_false]
    congr 1
    simp [String.append_assoc]
  · simp [paragon_new_net_any, h5, h3, hc]

/-- Witness for C6: the fourth branch evaluated on an all-unbound table,
and the first branch on a table with a bound 5-argument constructor. -/
theorem construction_facade_priority_spec_witness :
    paragon_new_net_any ⟨none, none, none⟩ "L" "A" "T" false false = none
  ∧ paragon_new_net_any ⟨some fun x _ _ _ _ => some x, none, none⟩ "L" "A" "T" false false
      = some "L" :=
  ⟨(construction_facade_priority_spec ⟨none, none, none⟩ "L" "A" "T").2.2.2 rfl rfl rfl,
   (construction_facade_priority_spec
      ⟨some fun x _ _ _ _ => some x, none, none⟩ "L" "A" "T").1 _ rfl⟩

/-- C7.  The divergence metrics are computed over the overlapping prefix of
the two decoded vectors (truncation to the shorter length), are `(0, 0)`
when the overlap is empty, and give mean `(0+0+2)/3` and maximum `2` on
`[1,2,3]` versus `[1,2,5]`. -/
theorem divergence_metrics_spec (a b : List ℚ) :
    (min a.length b.length = 0 → divergence a b = (0, 0))
  ∧ divergence a b =
      divergence (a.take (min a.length b.length)) (b.take (min a.length b.length))
  ∧ divergence [1, 2, 3] [1, 2, 5] = ((0 + 0 + 2) / 3, 2) := by
  refine ⟨fun h => ?_, ?_, ?_⟩
  · have hz : a.zip b = [] := by
      have hl := List.length_zip a b
      exact List.length_eq_zero.mp (by omega)
    simp [divergence, hz]
  · simp only [divergence, zip_take_min]
  · norm_num [divergence, List.zip_cons_cons, abs]

/-- Witness for C7: empty overlap evaluated at `[]` versus `[1]`. -/
theorem divergence_metrics_spec_witness : divergence [] [1] = (0, 0) :=
  (divergence_metrics_spec [] [1]).1 rfl

/-- C8.  The reported speedup is baseline time over accelerated time when
the accelerated time is positive, and is defined as `0` when the
accelerated time is zero (or not positive at all), so the division never
runs with a zero divisor. -/
theorem speedup_ratio_spec (cpu_ms gpu_ms : ℚ) :
    (gpu_ms = 0 → speedup cpu_ms gpu_ms = 0)
  ∧ (0 < gpu_ms → speedup cpu_ms gpu_ms = cpu_ms / gpu_ms)
  ∧ (gpu_ms ≤ 0 → speedup cpu_ms gpu_ms = 0) := by
  refine ⟨fun h => ?_, fun h => ?_, fun h => ?_⟩
  · simp [speedup, h]
  · simp [speedup, h]
  · simp [speedup, not_lt.mpr h]

/-- Witness for C8: a zero and a positive accelerated time. -/
theorem speedup_ratio_spec_witness : speedup 3 0 = 0 ∧ speedup 3 2 = 3 / 2 :=
  ⟨(speedup_ratio_spec 3 0).1 rfl, (speedup_ratio_spec 3 2).2.1 (by norm_num)⟩

/-- C9.  The strategy branch of the construction façade is a pure function
of which capabilities are bound: any two capability tables binding the same
categories select the same branch, so repeated invocations with an
unchanged table exercise the same branch. -/
theorem strategy_purity_spec (a1 a2 : ParagonAPI)
    (h5 : a1.New5.isSome = a2.New5.isSome)
    (h3 : a1.New3.isSome = a2.New3.isSome)
    (hc : a1.Call.isSome = a2.Call.isSome) :
    chooseStrategy a1 = chooseStrategy a2 := by
  obtain ⟨n5, n3, nc⟩ := a1
  obtain ⟨m5, m3, mc⟩ := a2
  cases n5 <;> cases m5 <;> cases n3 <;> cases m3 <;> cases nc <;> cases mc <;>
    simp_all [chooseStrategy]

/-- Witness for C9: two tables binding only the 5-argument category, with
different bound functions, select the same branch. -/
theorem strategy_purity_spec_witness :
    chooseStrategy ⟨some fun x _ _ _ _ => some x, none, none⟩
      = chooseStrategy ⟨some fun _ _ _ _ _ => none, none, none⟩ :=
  strategy_purity_spec _ _ rfl rfl rfl

/-- C10.  Handle decoding of the empty string returns `0`, not the `-1`
sentinel: `strtoll` performs no conversion yet leaves its end pointer on
the terminator, so the bare-integer branch fires with value `0`; the
benchmark then rejects the construction only through its separate
`handle ≤ 0` check. -/
theorem parse_handle_empty_spec :
    paragon_parse_handle (some "") = 0
  ∧ (strtoll "".data).ok = false
  ∧ (strtoll "".data).rest = []
  ∧ paragon_parse_handle (some "") ≠ -1
  ∧ run_one ⟨some fun _ _ _ _ _ => some "", none, none⟩ [784, 64, 10]
      = CaseOutcome.constructionFailed (some "") :=
  ⟨rfl, rfl, rfl, by decide, rfl⟩

end ParagonBench
